import Mathlib

/-!
Shallow embedding of the particle engine in
`src/components/ParticleBackground.tsx` (repository Metahumanz/Zentick).

Floating-point numbers are modelled as real numbers; the separate `JSNum`
type below additionally tracks IEEE-754 non-finite values (NaN / ±Infinity)
for the division-by-zero analysis of the pointer repulsion, where the
real-number model and JavaScript semantics differ (in JavaScript `0/0`
is NaN, while `0/0 = 0` for Lean's reals).
-/

namespace Zentick

/-- Particle record, fields in the order of the object literal pushed by
`initParticles` (ParticleBackground.tsx lines 96-110). -/
structure Particle where
  x : ℝ
  y : ℝ
  vx : ℝ
  vy : ℝ
  baseVx : ℝ
  baseVy : ℝ
  size : ℝ
  color : String
  baseX : ℝ
  baseY : ℝ
  density : ℝ

/-- The shared pointer state `mouseRef.current` (line 14). -/
structure Mouse where
  x : ℝ
  y : ℝ
  isActive : Bool

/-- `Math.atan2 y x`, embedded through the complex argument
(both have range `(-π, π]` and send `(0, 0)` to `0`). -/
noncomputable def atan2 (y x : ℝ) : ℝ := Complex.arg ⟨x, y⟩

/-- Body of the `forEach` in `handleInteractionStart` (lines 40-59):
the one-shot burst kick applied to one particle for a burst at `(x, y)`. -/
noncomputable def burstKick (x y : ℝ) (p : Particle) : Particle :=
  let dx := p.x - x
  let dy := p.y - y
  let distance := Real.sqrt (dx * dx + dy * dy)
  if distance < 300 then
    let force := (300 - distance) / 300
    let angle := atan2 dy dx
    { p with vx := p.vx + Real.cos angle * force * 15,
             vy := p.vy + Real.sin angle * force * 15 }
  else p

/-- The jitter drawn for one axis in one tick (lines 126-132):
`(Math.random() - 0.5) * 4` when `isAlarming`, else `0`.  The random
draw `r` is passed in as a parameter. -/
noncomputable def jitterOf (isAlarming : Bool) (r : ℝ) : ℝ :=
  if isAlarming then (r - 0.5) * 4 else 0

/-- The boundary wrap for one coordinate (lines 139-140 / 141-142):
`if (c < 0) c = dim; if (c > dim) c = 0;` — two sequential checks. -/
noncomputable def wrapCoord (c dim : ℝ) : ℝ :=
  let c1 := if c < 0 then dim else c
  if c1 > dim then 0 else c1

/-- The continuous pointer repulsion (lines 144-164), applied to the
particle after the wrap step of the same tick. -/
noncomputable def repel (m : Mouse) (p : Particle) : Particle :=
  if m.isActive then
    let dx := m.x - p.x
    let dy := m.y - p.y
    let distance := Real.sqrt (dx * dx + dy * dy)
    if distance < 250 then
      let forceDirectionX := dx / distance
      let forceDirectionY := dy / distance
      let force := (250 - distance) / 250
      let directionX := forceDirectionX * force * p.density * 1.5
      let directionY := forceDirectionY * force * p.density * 1.5
      { p with x := p.x - directionX, y := p.y - directionY }
    else p
  else p

/-- One integration tick for one particle (body of the `forEach` in
`animate`, lines 118-164): drift recovery, jitter, position update,
boundary wrap, then pointer repulsion.  `r1 r2` are the two random
draws used for the jitter of this tick. -/
noncomputable def tick (isAlarming : Bool) (r1 r2 : ℝ) (m : Mouse)
    (w h : ℝ) (p : Particle) : Particle :=
  let vx := p.vx * 0.96 + p.baseVx * 0.04
  let vy := p.vy * 0.96 + p.baseVy * 0.04
  let jitterX := jitterOf isAlarming r1
  let jitterY := jitterOf isAlarming r2
  let x := wrapCoord (p.x + vx + jitterX) w
  let y := wrapCoord (p.y + vy + jitterY) h
  repel m { p with x := x, y := y, vx := vx, vy := vy }

/-- Trip count of `for (let i = 0; i < count; i++)` over the naturals for a
(possibly fractional) real bound `count`: the number of naturals strictly
below `count`. -/
def loopTrips (count : ℚ) : ℕ := ⌈count⌉₊

/-- `i` is executed by the loop iff `i < loopTrips count`. -/
lemma loopTrips_iff (count : ℚ) (i : ℕ) : i < loopTrips count ↔ (i : ℚ) < count :=
  Nat.lt_ceil

/-- Number of particles created by `initParticles` (lines 86-113):
`count = Math.min(window.innerWidth / 15, 100)` and the loop pushes one
particle per iteration. -/
def initCount (w : ℚ) : ℕ := loopTrips (min (w / 15) 100)

/-- A line segment emitted by the connection pass, with its stroke alpha
and line width. -/
structure Segment where
  x1 : ℝ
  y1 : ℝ
  x2 : ℝ
  y2 : ℝ
  alpha : ℝ
  lineWidth : ℝ

/-- Body of the inner connection loop for one pair (lines 176-192):
draw a segment iff the distance is below `connectDistance = 120`, with
stroke alpha `0.08 - distance/1500` and line width `0.5`. -/
noncomputable def connectStep (a b : Particle) : Option Segment :=
  let dx := a.x - b.x
  let dy := a.y - b.y
  let distance := Real.sqrt (dx * dx + dy * dy)
  if distance < 120 then
    some ⟨a.x, a.y, b.x, b.y, 0.08 - distance / 1500, 0.5⟩
  else
    none

/-- The double loop `for i; for j = i + 1` over all unordered pairs
(lines 174-194), collecting the drawn segments. -/
noncomputable def connectLines : List Particle → List Segment
  | [] => []
  | p :: rest => rest.filterMap (connectStep p) ++ connectLines rest

/-! ### Helper lemmas -/

lemma wrapCoord_id (c dim : ℝ) (h0 : 0 ≤ c) (h1 : c ≤ dim) : wrapCoord c dim = c := by
  unfold wrapCoord
  rw [if_neg (not_lt.2 h0), if_neg (not_lt.2 h1)]

lemma repel_inactive (m : Mouse) (p : Particle) (h : m.isActive = false) :
    repel m p = p := by
  unfold repel
  rw [h]
  simp

lemma repel_vx (m : Mouse) (p : Particle) : (repel m p).vx = p.vx := by
  simp only [repel]
  split <;> [skip; rfl]
  split <;> rfl

lemma repel_vy (m : Mouse) (p : Particle) : (repel m p).vy = p.vy := by
  simp only [repel]
  split <;> [skip; rfl]
  split <;> rfl

lemma repel_fixed (m : Mouse) (p : Particle) :
    (repel m p).baseVx = p.baseVx ∧ (repel m p).baseVy = p.baseVy ∧
      (repel m p).size = p.size ∧ (repel m p).color = p.color ∧
      (repel m p).baseX = p.baseX ∧ (repel m p).baseY = p.baseY ∧
      (repel m p).density = p.density := by
  simp only [repel]
  split <;> [skip; exact ⟨rfl, rfl, rfl, rfl, rfl, rfl, rfl⟩]
  split <;> exact ⟨rfl, rfl, rfl, rfl, rfl, rfl, rfl⟩

lemma tick_vx (b : Bool) (r1 r2 : ℝ) (m : Mouse) (w h : ℝ) (p : Particle) :
    (tick b r1 r2 m w h p).vx = p.vx * 0.96 + p.baseVx * 0.04 := by
  unfold tick
  rw [repel_vx]

lemma tick_vy (b : Bool) (r1 r2 : ℝ) (m : Mouse) (w h : ℝ) (p : Particle) :
    (tick b r1 r2 m w h p).vy = p.vy * 0.96 + p.baseVy * 0.04 := by
  unfold tick
  rw [repel_vy]

lemma tick_fixed (b : Bool) (r1 r2 : ℝ) (m : Mouse) (w h : ℝ) (p : Particle) :
    (tick b r1 r2 m w h p).baseVx = p.baseVx ∧ (tick b r1 r2 m w h p).baseVy = p.baseVy ∧
      (tick b r1 r2 m w h p).size = p.size ∧ (tick b r1 r2 m w h p).color = p.color ∧
      (tick b r1 r2 m w h p).baseX = p.baseX ∧ (tick b r1 r2 m w h p).baseY = p.baseY ∧
      (tick b r1 r2 m w h p).density = p.density := by
  unfold tick
  exact repel_fixed _ _

lemma burstKick_fixed (cx cy : ℝ) (p : Particle) :
    (burstKick cx cy p).baseVx = p.baseVx ∧ (burstKick cx cy p).baseVy = p.baseVy ∧
      (burstKick cx cy p).size = p.size ∧ (burstKick cx cy p).color = p.color ∧
      (burstKick cx cy p).baseX = p.baseX ∧ (burstKick cx cy p).baseY = p.baseY ∧
      (burstKick cx cy p).density = p.density ∧
      (burstKick cx cy p).x = p.x ∧ (burstKick cx cy p).y = p.y := by
  simp only [burstKick]
  split <;> exact ⟨rfl, rfl, rfl, rfl, rfl, rfl, rfl, rfl, rfl⟩

lemma tick_iter_vx (m : Mouse) (w h : ℝ) (n : ℕ) (p : Particle) :
    ((tick false 0 0 m w h)^[n] p).vx - p.baseVx = 0.96 ^ n * (p.vx - p.baseVx) ∧
      ((tick false 0 0 m w h)^[n] p).baseVx = p.baseVx := by
  induction n with
  | zero => simp
  | succ k ih =>
    rw [Function.iterate_succ_apply', tick_vx, (tick_fixed _ _ _ _ _ _ _).1, ih.2]
    constructor
    · rw [pow_succ]
      have hvx := ih.1
      nlinarith [hvx]
    · rfl

lemma tick_iter_vy (m : Mouse) (w h : ℝ) (n : ℕ) (p : Particle) :
    ((tick false 0 0 m w h)^[n] p).vy - p.baseVy = 0.96 ^ n * (p.vy - p.baseVy) ∧
      ((tick false 0 0 m w h)^[n] p).baseVy = p.baseVy := by
  induction n with
  | zero => simp
  | succ k ih =>
    rw [Function.iterate_succ_apply', tick_vy, (tick_fixed _ _ _ _ _ _ _).2.1, ih.2]
    constructor
    · rw [pow_succ]
      have hvy := ih.1
      nlinarith [hvy]
    · rfl

/-! ### Claim theorems -/

/-- C9: for every particle, the fields `baseVx`, `baseVy`, `size`, `color`
and `density` (and the unused `baseX`, `baseY`) are never modified by an
integration tick or by a burst; a burst additionally leaves the position
unchanged, so only position and velocity are ever mutated. -/
theorem c9_immutable_fields (b : Bool) (r1 r2 : ℝ) (m : Mouse) (w h cx cy : ℝ)
    (p : Particle) :
    ((tick b r1 r2 m w h p).baseVx = p.baseVx ∧ (tick b r1 r2 m w h p).baseVy = p.baseVy ∧
      (tick b r1 r2 m w h p).size = p.size ∧ (tick b r1 r2 m w h p).color = p.color ∧
      (tick b r1 r2 m w h p).baseX = p.baseX ∧ (tick b r1 r2 m w h p).baseY = p.baseY ∧
      (tick b r1 r2 m w h p).density = p.density) ∧
    ((burstKick cx cy p).baseVx = p.baseVx ∧ (burstKick cx cy p).baseVy = p.baseVy ∧
      (burstKick cx cy p).size = p.size ∧ (burstKick cx cy p).color = p.color ∧
      (burstKick cx cy p).baseX = p.baseX ∧ (burstKick cx cy p).baseY = p.baseY ∧
      (burstKick cx cy p).density = p.density ∧
      (burstKick cx cy p).x = p.x ∧ (burstKick cx cy p).y = p.y) :=
  ⟨tick_fixed b r1 r2 m w h p, burstKick_fixed cx cy p⟩

/-- C5: each tick updates velocity by `v * 0.96 + baseV * 0.04` per axis,
so with the pointer inactive (no repulsion), no burst and no jitter
(`isAlarming = false`), after `n` ticks the distance of each velocity
component from its base value is at most `0.96 ^ n` times the initial
distance. -/
theorem c5_velocity_decay (n : ℕ) (m : Mouse) (w h : ℝ) (p : Particle)
    (_hm : m.isActive = false) :
    (tick false 0 0 m w h p).vx = p.vx * 0.96 + p.baseVx * 0.04 ∧
    (tick false 0 0 m w h p).vy = p.vy * 0.96 + p.baseVy * 0.04 ∧
    |((tick false 0 0 m w h)^[n] p).vx - p.baseVx| ≤ 0.96 ^ n * |p.vx - p.baseVx| ∧
    |((tick false 0 0 m w h)^[n] p).vy - p.baseVy| ≤ 0.96 ^ n * |p.vy - p.baseVy| := by
  refine ⟨tick_vx _ _ _ _ _ _ _, tick_vy _ _ _ _ _ _ _, ?_, ?_⟩
  · rw [(tick_iter_vx m w h n p).1, abs_mul, abs_pow]
    have h96 : |(0.96 : ℝ)| = 0.96 := abs_of_pos (by norm_num)
    rw [h96]
  · rw [(tick_iter_vy m w h n p).1, abs_mul, abs_pow]
    have h96 : |(0.96 : ℝ)| = 0.96 := abs_of_pos (by norm_num)
    rw [h96]

/-- Witness for C5 at a concrete input. -/
theorem c5_velocity_decay_witness :
    (⟨0, 0, false⟩ : Mouse).isActive = false ∧
    |((tick false 0 0 ⟨0, 0, false⟩ 800 600)^[1]
        ⟨0, 0, 1, 0, 0, 0, 2, "c", 0, 0, 1⟩).vx -
      (⟨0, 0, 1, 0, 0, 0, 2, "c", 0, 0, 1⟩ : Particle).baseVx| ≤
      0.96 ^ 1 * |(⟨0, 0, 1, 0, 0, 0, 2, "c", 0, 0, 1⟩ : Particle).vx -
        (⟨0, 0, 1, 0, 0, 0, 2, "c", 0, 0, 1⟩ : Particle).baseVx| :=
  ⟨rfl, (c5_velocity_decay 1 ⟨0, 0, false⟩ 800 600 _ rfl).2.2.1⟩

/-- C8: the alarming flag has no state of its own and acts only through
the per-tick jitter: the jitter drawn from random values in `[0, 1]` lies
in `[-2, 2]` on each axis, it is `0` when the flag is off, the updated
velocity never depends on the flag or the random draws, and two ticks
whose jitter values agree produce identical particles even when their
flags differ. -/
theorem c8_alarm_jitter (b b2 : Bool) (r1 r2 s1 s2 : ℝ) (m : Mouse) (w h : ℝ)
    (p : Particle)
    (hr1 : 0 ≤ r1) (hr2 : r1 ≤ 1) (hr3 : 0 ≤ r2) (hr4 : r2 ≤ 1)
    (hj1 : jitterOf b r1 = jitterOf b2 s1) (hj2 : jitterOf b r2 = jitterOf b2 s2) :
    (-2 ≤ jitterOf b r1 ∧ jitterOf b r1 ≤ 2) ∧
    (-2 ≤ jitterOf b r2 ∧ jitterOf b r2 ≤ 2) ∧
    jitterOf false r1 = 0 ∧
    (tick b r1 r2 m w h p).vx = p.vx * 0.96 + p.baseVx * 0.04 ∧
    (tick b r1 r2 m w h p).vy = p.vy * 0.96 + p.baseVy * 0.04 ∧
    tick b r1 r2 m w h p = tick b2 s1 s2 m w h p := by
  refine ⟨?_, ?_, rfl, tick_vx _ _ _ _ _ _ _, tick_vy _ _ _ _ _ _ _, ?_⟩
  · unfold jitterOf
    split
    · constructor <;> linarith
    · constructor <;> norm_num
  · unfold jitterOf
    split
    · constructor <;> linarith
    · constructor <;> norm_num
  · simp only [tick]
    rw [hj1, hj2]

/-- Witness for C8 at a concrete input: an alarming tick with central
random draws coincides with a non-alarming tick. -/
theorem c8_alarm_jitter_witness :
    (-2 ≤ jitterOf true 0.5 ∧ jitterOf true 0.5 ≤ 2) ∧
    (-2 ≤ jitterOf true 0.5 ∧ jitterOf true 0.5 ≤ 2) ∧
    jitterOf false 0.5 = 0 ∧
    (tick true 0.5 0.5 ⟨0, 0, false⟩ 800 600 ⟨5, 5, 1, 1, 0, 0, 2, "c", 5, 5, 1⟩).vx =
      (⟨5, 5, 1, 1, 0, 0, 2, "c", 5, 5, 1⟩ : Particle).vx * 0.96 +
        (⟨5, 5, 1, 1, 0, 0, 2, "c", 5, 5, 1⟩ : Particle).baseVx * 0.04 ∧
    (tick true 0.5 0.5 ⟨0, 0, false⟩ 800 600 ⟨5, 5, 1, 1, 0, 0, 2, "c", 5, 5, 1⟩).vy =
      (⟨5, 5, 1, 1, 0, 0, 2, "c", 5, 5, 1⟩ : Particle).vy * 0.96 +
        (⟨5, 5, 1, 1, 0, 0, 2, "c", 5, 5, 1⟩ : Particle).baseVy * 0.04 ∧
    tick true 0.5 0.5 ⟨0, 0, false⟩ 800 600 ⟨5, 5, 1, 1, 0, 0, 2, "c", 5, 5, 1⟩ =
      tick false 0.9 0.1 ⟨0, 0, false⟩ 800 600 ⟨5, 5, 1, 1, 0, 0, 2, "c", 5, 5, 1⟩ :=
  c8_alarm_jitter true false 0.5 0.5 0.9 0.1 ⟨0, 0, false⟩ 800 600
    ⟨5, 5, 1, 1, 0, 0, 2, "c", 5, 5, 1⟩
    (by norm_num) (by norm_num) (by norm_num) (by norm_num)
    (by unfold jitterOf; norm_num) (by unfold jitterOf; norm_num)

/-- C2 fails as stated: a coordinate that exits below `0` is wrapped to
exactly the surface dimension, which is not `< width`.  Concretely, a
particle at `x = 1` with velocity `-5` (for instance just after a burst)
moves to `-3.8` and is wrapped to `x = 800` on an `800 × 600` surface. -/
theorem c2_counterexample :
    (tick false 0 0 ⟨0, 0, false⟩ 800 600 ⟨1, 300, -5, 0, 0, 0, 2, "c", 1, 300, 10⟩).x = 800 ∧
    ¬ (tick false 0 0 ⟨0, 0, false⟩ 800 600 ⟨1, 300, -5, 0, 0, 0, 2, "c", 1, 300, 10⟩).x < 800 := by
  have hx : (tick false 0 0 ⟨0, 0, false⟩ 800 600
      ⟨1, 300, -5, 0, 0, 0, 2, "c", 1, 300, 10⟩).x = 800 := by
    simp only [tick, jitterOf]
    rw [repel_inactive _ _ rfl]
    show wrapCoord ((1 : ℝ) + (-5 * 0.96 + 0 * 0.04) + 0) 800 = 800
    unfold wrapCoord
    rw [if_pos (by norm_num : (1 : ℝ) + (-5 * 0.96 + 0 * 0.04) + 0 < 0)]
    rw [if_neg (by norm_num : ¬ (800 : ℝ) > 800)]
  exact ⟨hx, by rw [hx]; exact lt_irrefl 800⟩

/-- C2 amended: after the boundary-wrap step every coordinate lies in the
closed interval `[0, dim]` (wrapping a negative coordinate lands exactly
on the dimension, so the right endpoint is attained). -/
theorem c2_wrap_closed_interval (c dim : ℝ) (hdim : 0 ≤ dim) :
    0 ≤ wrapCoord c dim ∧ wrapCoord c dim ≤ dim := by
  unfold wrapCoord
  by_cases h1 : c < 0
  · rw [if_pos h1, if_neg (by linarith : ¬ dim > dim)]
    exact ⟨hdim, le_refl dim⟩
  · rw [if_neg h1]
    by_cases h2 : c > dim
    · rw [if_pos h2]
      exact ⟨le_refl 0, hdim⟩
    · rw [if_neg h2]
      exact ⟨le_of_not_lt h1, le_of_not_lt h2⟩

/-- Witness for the amended C2 at a concrete input. -/
theorem c2_wrap_closed_interval_witness :
    (0 : ℝ) ≤ 800 ∧ 0 ≤ wrapCoord (-1) 800 ∧ wrapCoord (-1) 800 ≤ 800 :=
  ⟨by norm_num, (c2_wrap_closed_interval (-1) 800 (by norm_num)).1,
    (c2_wrap_closed_interval (-1) 800 (by norm_num)).2⟩

/-- C3 fails as stated: for surface width `95` the loop
`for (let i = 0; i < count; i++)` with `count = min(95/15, 100) = 6.33…`
runs `7` times, but `min(round(95/15), 100) = 6`. -/
theorem c3_counterexample :
    ¬ ((initCount 95 : ℤ) = min (round ((95 : ℚ) / 15)) 100) := by
  have h1 : initCount 95 = 7 := by
    unfold initCount loopTrips
    rw [min_eq_left (by norm_num : (95 : ℚ) / 15 ≤ 100)]
    rw [Nat.ceil_eq_iff (by norm_num : (7 : ℕ) ≠ 0)]
    constructor <;> norm_num
  have h2 : round ((95 : ℚ) / 15) = 6 := by
    rw [round_eq, Int.floor_eq_iff]
    constructor <;> norm_num
  rw [h1, h2]
  norm_num

/-- C3 amended: the number of particles created by initialization for a
surface width `w` equals `min(ceil(w/15), 100)` (the loop bound is not
rounded to nearest: `i < count` runs `ceil(count)` times), and it is
always nonnegative. -/
theorem c3_count_ceil (w : ℚ) :
    initCount w = min ⌈w / 15⌉₊ 100 ∧ 0 ≤ (initCount w : ℤ) := by
  constructor
  · unfold initCount loopTrips
    rcases le_total (w / 15) 100 with h | h
    · rw [min_eq_left h, min_eq_left]
      calc ⌈w / 15⌉₊ ≤ ⌈(100 : ℚ)⌉₊ := Nat.ceil_mono h
        _ = 100 := Nat.ceil_ofNat 100
    · rw [min_eq_right h, min_eq_right]
      · exact congrArg Nat.ceil rfl |>.trans (Nat.ceil_ofNat 100)
      · calc (100 : ℕ) = ⌈(100 : ℚ)⌉₊ := (Nat.ceil_ofNat 100).symm
          _ ≤ ⌈w / 15⌉₊ := Nat.ceil_mono h
  · exact Int.natCast_nonneg _

lemma cos_atan2 (y x : ℝ) (h : ¬(x = 0 ∧ y = 0)) :
    Real.cos (atan2 y x) = x / Real.sqrt (x * x + y * y) := by
  unfold atan2
  have hz : (⟨x, y⟩ : ℂ) ≠ 0 := by
    intro hc
    apply h
    constructor
    · have hre := congrArg Complex.re hc
      simpa using hre
    · have him := congrArg Complex.im hc
      simpa using him
  rw [Complex.cos_arg hz, Complex.abs_apply, Complex.normSq_mk]

lemma sin_atan2 (y x : ℝ) :
    Real.sin (atan2 y x) = y / Real.sqrt (x * x + y * y) := by
  unfold atan2
  rw [Complex.sin_arg, Complex.abs_apply, Complex.normSq_mk]

/-- C4: a burst at `(cx, cy)` gives every particle at distance
`0 < d < 300` a one-shot velocity delta that is a positive multiple of
the vector from the center to the particle (i.e. points strictly away
from the center), whose magnitude is `15 * (300 - d) / 300`; that
magnitude is strictly decreasing in `d`, and particles at or beyond
distance `300` are left unchanged. -/
theorem c4_burst_profile (cx cy d : ℝ) (p : Particle)
    (hd : Real.sqrt ((p.x - cx) * (p.x - cx) + (p.y - cy) * (p.y - cy)) = d) :
    (0 < d → d < 300 →
      (burstKick cx cy p).vx - p.vx = 15 * (300 - d) / (300 * d) * (p.x - cx) ∧
      (burstKick cx cy p).vy - p.vy = 15 * (300 - d) / (300 * d) * (p.y - cy) ∧
      0 < 15 * (300 - d) / (300 * d) ∧
      Real.sqrt (((burstKick cx cy p).vx - p.vx) * ((burstKick cx cy p).vx - p.vx) +
          ((burstKick cx cy p).vy - p.vy) * ((burstKick cx cy p).vy - p.vy)) =
        15 * (300 - d) / 300) ∧
    (300 ≤ d → burstKick cx cy p = p) ∧
    (∀ d2, 0 < d → d < d2 → d2 < 300 →
      15 * (300 - d2) / 300 < 15 * (300 - d) / 300) := by
  refine ⟨?_, ?_, ?_⟩
  · intro h0 h300
    have hne : ¬((p.x - cx) = 0 ∧ (p.y - cy) = 0) := by
      rintro ⟨h1, h2⟩
      rw [h1, h2] at hd
      rw [show (0 : ℝ) * 0 + 0 * 0 = 0 by ring, Real.sqrt_zero] at hd
      linarith
    have hkey : burstKick cx cy p =
        { p with
          vx := p.vx + (p.x - cx) / d * ((300 - d) / 300) * 15,
          vy := p.vy + (p.y - cy) / d * ((300 - d) / 300) * 15 } := by
      simp only [burstKick]
      rw [cos_atan2 _ _ hne, sin_atan2, hd, if_pos h300]
    have hdx : (burstKick cx cy p).vx - p.vx = 15 * (300 - d) / (300 * d) * (p.x - cx) := by
      rw [hkey]
      show p.vx + (p.x - cx) / d * ((300 - d) / 300) * 15 - p.vx =
        15 * (300 - d) / (300 * d) * (p.x - cx)
      field_simp
      ring
    have hdy : (burstKick cx cy p).vy - p.vy = 15 * (300 - d) / (300 * d) * (p.y - cy) := by
      rw [hkey]
      show p.vy + (p.y - cy) / d * ((300 - d) / 300) * 15 - p.vy =
        15 * (300 - d) / (300 * d) * (p.y - cy)
      field_simp
      ring
    have hc : 0 < 15 * (300 - d) / (300 * d) := by
      apply div_pos (by linarith) (by linarith)
    refine ⟨hdx, hdy, hc, ?_⟩
    have hss : (p.x - cx) * (p.x - cx) + (p.y - cy) * (p.y - cy) = d * d := by
      have := Real.mul_self_sqrt
        (add_nonneg (mul_self_nonneg (p.x - cx)) (mul_self_nonneg (p.y - cy)))
      rw [hd] at this
      linarith
    rw [hdx, hdy]
    have harg : 15 * (300 - d) / (300 * d) * (p.x - cx) *
          (15 * (300 - d) / (300 * d) * (p.x - cx)) +
        15 * (300 - d) / (300 * d) * (p.y - cy) *
          (15 * (300 - d) / (300 * d) * (p.y - cy)) =
        (15 * (300 - d) / 300) * (15 * (300 - d) / 300) := by
      have expand : 15 * (300 - d) / (300 * d) * (p.x - cx) *
            (15 * (300 - d) / (300 * d) * (p.x - cx)) +
          15 * (300 - d) / (300 * d) * (p.y - cy) *
            (15 * (300 - d) / (300 * d) * (p.y - cy)) =
          (15 * (300 - d) / (300 * d)) * (15 * (300 - d) / (300 * d)) *
            ((p.x - cx) * (p.x - cx) + (p.y - cy) * (p.y - cy)) := by ring
      rw [expand, hss]
      field_simp
      ring
    rw [harg, Real.sqrt_mul_self (div_nonneg (by linarith) (by norm_num))]
  · intro h300
    simp only [burstKick]
    rw [hd, if_neg (not_lt.2 h300)]
  · intro d2 h0 h12 h2300
    have hlin : 15 * (300 - d) / 300 - 15 * (300 - d2) / 300 = (d2 - d) / 20 := by ring
    linarith

/-- Witness for C4: a burst at `(100, 100)` kicks the particle at
`(103, 104)` (distance 5) by the stated profile. -/
theorem c4_burst_profile_witness :
    (burstKick 100 100 ⟨103, 104, 0, 0, 0, 0, 2, "c", 103, 104, 10⟩).vx -
        (⟨103, 104, 0, 0, 0, 0, 2, "c", 103, 104, 10⟩ : Particle).vx =
      15 * (300 - 5) / (300 * 5) *
        ((⟨103, 104, 0, 0, 0, 0, 2, "c", 103, 104, 10⟩ : Particle).x - 100) ∧
    (burstKick 100 100 ⟨103, 104, 0, 0, 0, 0, 2, "c", 103, 104, 10⟩).vy -
        (⟨103, 104, 0, 0, 0, 0, 2, "c", 103, 104, 10⟩ : Particle).vy =
      15 * (300 - 5) / (300 * 5) *
        ((⟨103, 104, 0, 0, 0, 0, 2, "c", 103, 104, 10⟩ : Particle).y - 100) ∧
    0 < 15 * (300 - 5) / (300 * 5 : ℝ) ∧
    Real.sqrt
        (((burstKick 100 100 ⟨103, 104, 0, 0, 0, 0, 2, "c", 103, 104, 10⟩).vx -
            (⟨103, 104, 0, 0, 0, 0, 2, "c", 103, 104, 10⟩ : Particle).vx) *
          ((burstKick 100 100 ⟨103, 104, 0, 0, 0, 0, 2, "c", 103, 104, 10⟩).vx -
            (⟨103, 104, 0, 0, 0, 0, 2, "c", 103, 104, 10⟩ : Particle).vx) +
          ((burstKick 100 100 ⟨103, 104, 0, 0, 0, 0, 2, "c", 103, 104, 10⟩).vy -
            (⟨103, 104, 0, 0, 0, 0, 2, "c", 103, 104, 10⟩ : Particle).vy) *
          ((burstKick 100 100 ⟨103, 104, 0, 0, 0, 0, 2, "c", 103, 104, 10⟩).vy -
            (⟨103, 104, 0, 0, 0, 0, 2, "c", 103, 104, 10⟩ : Particle).vy)) =
      15 * (300 - 5) / 300 :=
  (c4_burst_profile 100 100 5 ⟨103, 104, 0, 0, 0, 0, 2, "c", 103, 104, 10⟩
    (by
      have harg : ((⟨103, 104, 0, 0, 0, 0, 2, "c", 103, 104, 10⟩ : Particle).x - 100) *
            ((⟨103, 104, 0, 0, 0, 0, 2, "c", 103, 104, 10⟩ : Particle).x - 100) +
          ((⟨103, 104, 0, 0, 0, 0, 2, "c", 103, 104, 10⟩ : Particle).y - 100) *
            ((⟨103, 104, 0, 0, 0, 0, 2, "c", 103, 104, 10⟩ : Particle).y - 100) = 25 := by
        norm_num
      rw [harg, show (25 : ℝ) = 5 * 5 by norm_num,
        Real.sqrt_mul_self (by norm_num : (0:ℝ) ≤ 5)])).1
    (by norm_num) (by norm_num)

lemma repel_active (mx my : ℝ) (p : Particle) (d : ℝ)
    (hd : Real.sqrt ((mx - p.x) * (mx - p.x) + (my - p.y) * (my - p.y)) = d)
    (hlt : d < 250) :
    repel ⟨mx, my, true⟩ p =
      { p with
        x := p.x - (mx - p.x) / d * ((250 - d) / 250) * p.density * 1.5,
        y := p.y - (my - p.y) / d * ((250 - d) / 250) * p.density * 1.5 } := by
  simp only [repel]
  rw [hd, if_pos trivial, if_pos hlt]

lemma tick_eq (b : Bool) (r1 r2 : ℝ) (m : Mouse) (w h : ℝ) (p : Particle) :
    tick b r1 r2 m w h p =
      repel m
        { p with
          x := wrapCoord (p.x + (p.vx * 0.96 + p.baseVx * 0.04) + jitterOf b r1) w,
          y := wrapCoord (p.y + (p.vy * 0.96 + p.baseVy * 0.04) + jitterOf b r2) h,
          vx := p.vx * 0.96 + p.baseVx * 0.04,
          vy := p.vy * 0.96 + p.baseVy * 0.04 } := rfl

lemma jitterOf_false (r : ℝ) : jitterOf false r = 0 := rfl

lemma repel_x_gt (q : Particle) (hx1 : 149.85 ≤ q.x) (hx2 : q.x ≤ 150.15)
    (hy1 : 99.85 ≤ q.y) (hy2 : q.y ≤ 100.15) (hden : 1 ≤ q.density) :
    150 < (repel ⟨100, 100, true⟩ q).x := by
  set D := Real.sqrt ((100 - q.x) * (100 - q.x) + (100 - q.y) * (100 - q.y)) with hD
  have hD_ub : D ≤ 50.2 := by
    rw [hD]
    exact (Real.sqrt_le_left (by norm_num)).mpr (by nlinarith)
  have hD_lb : 49.85 ≤ D := by
    rw [hD]
    exact (Real.le_sqrt' (by norm_num)).mpr (by nlinarith)
  have hD_pos : (0:ℝ) < D := by linarith
  rw [repel_active 100 100 q D hD.symm (by linarith)]
  show 150 < q.x - (100 - q.x) / D * ((250 - D) / 250) * q.density * 1.5
  have hrw : q.x - (100 - q.x) / D * ((250 - D) / 250) * q.density * 1.5 =
      q.x + (q.x - 100) / D * ((250 - D) / 250) * q.density * 1.5 := by ring
  rw [hrw]
  have hq : 0.99 ≤ (q.x - 100) / D := by
    rw [le_div_iff₀ hD_pos]
    nlinarith
  have hf : 0.79 ≤ (250 - D) / 250 := by
    rw [le_div_iff₀ (by norm_num : (0:ℝ) < 250)]
    nlinarith
  have hqf : 0.99 * 0.79 ≤ (q.x - 100) / D * ((250 - D) / 250) :=
    mul_le_mul hq hf (by norm_num) (le_trans (by norm_num) hq)
  have hqfd : 0.99 * 0.79 * 1 ≤ (q.x - 100) / D * ((250 - D) / 250) * q.density :=
    mul_le_mul hqf hden (by norm_num) (le_trans (by norm_num) hqf)
  nlinarith [hqfd]

/-- C6: with the pointer active at `(100, 100)` and a particle at
`(150, 100)` in steady state (velocity equal to its base velocity, whose
components lie in `[-0.15, 0.15]`), one non-alarming integration tick on
a sufficiently large surface leaves the particle at `x > 150`: it is
pushed away from the pointer. -/
theorem c6_repulsion_scenario (r1 r2 w h : ℝ) (p : Particle)
    (hx : p.x = 150) (hy : p.y = 100)
    (hvx : p.vx = p.baseVx) (hvy : p.vy = p.baseVy)
    (hbx : |p.baseVx| ≤ 0.15) (hby : |p.baseVy| ≤ 0.15)
    (hden : 1 ≤ p.density) (hw : 151 ≤ w) (hh : 101 ≤ h) :
    150 < (tick false r1 r2 ⟨100, 100, true⟩ w h p).x := by
  obtain ⟨hbx1, hbx2⟩ := abs_le.mp hbx
  obtain ⟨hby1, hby2⟩ := abs_le.mp hby
  rw [tick_eq, jitterOf_false, jitterOf_false]
  have ex : p.x + (p.vx * 0.96 + p.baseVx * 0.04) + 0 = 150 + p.baseVx := by
    rw [hx, hvx]; ring
  have ey : p.y + (p.vy * 0.96 + p.baseVy * 0.04) + 0 = 100 + p.baseVy := by
    rw [hy, hvy]; ring
  rw [ex, ey,
    wrapCoord_id (150 + p.baseVx) w (by linarith) (by linarith),
    wrapCoord_id (100 + p.baseVy) h (by linarith) (by linarith)]
  apply repel_x_gt
  · show (149.85 : ℝ) ≤ 150 + p.baseVx
    linarith
  · show (150 + p.baseVx : ℝ) ≤ 150.15
    linarith
  · show (99.85 : ℝ) ≤ 100 + p.baseVy
    linarith
  · show (100 + p.baseVy : ℝ) ≤ 100.15
    linarith
  · show (1 : ℝ) ≤ p.density
    exact hden

/-- Witness for C6 at a concrete input: pointer at `(100, 100)`, particle
resting at `(150, 100)` with zero base velocity and density `10` on an
`800 × 600` surface. -/
theorem c6_repulsion_scenario_witness :
    150 < (tick false 0.3 0.7 ⟨100, 100, true⟩ 800 600
      ⟨150, 100, 0, 0, 0, 0, 2, "c", 150, 100, 10⟩).x :=
  c6_repulsion_scenario 0.3 0.7 800 600 ⟨150, 100, 0, 0, 0, 0, 2, "c", 150, 100, 10⟩
    rfl rfl rfl rfl (by norm_num) (by norm_num) (by norm_num) (by norm_num) (by norm_num)

lemma repel_x (mx my : ℝ) (p : Particle) (d : ℝ)
    (hd : Real.sqrt ((mx - p.x) * (mx - p.x) + (my - p.y) * (my - p.y)) = d)
    (hlt : d < 250) :
    (repel ⟨mx, my, true⟩ p).x =
      p.x - (mx - p.x) / d * ((250 - d) / 250) * p.density * 1.5 := by
  rw [repel_active mx my p d hd hlt]

lemma tick_x_inactive (b : Bool) (r1 r2 : ℝ) (m : Mouse) (w h : ℝ) (p : Particle)
    (hm : m.isActive = false) :
    (tick b r1 r2 m w h p).x =
      wrapCoord (p.x + (p.vx * 0.96 + p.baseVx * 0.04) + jitterOf b r1) w := by
  rw [tick_eq, repel_inactive _ _ hm]

lemma wrapCoord_neg (c dim : ℝ) (hc : c < 0) : wrapCoord c dim = dim := by
  unfold wrapCoord
  rw [if_pos hc, if_neg (lt_irrefl dim)]

/-- Sample particle used for the post-repulsion escape scenario. -/
def pEscape : Particle := ⟨5, 300, 0, 0, 0, 0, 2, "c", 5, 300, 30⟩

/-- C10: because the continuous pointer repulsion runs after the
boundary-wrap step and its displacement is not re-wrapped in the same
tick, a reachable state with the pointer active can end an integration
tick with its position outside `[0, w] × [0, h]`; the following tick
(here with the pointer released) wraps it back into range. -/
theorem c10_post_repulsion_escape :
    ∃ (w h : ℝ) (m : Mouse) (p : Particle),
      m.isActive = true ∧
      0 ≤ p.x ∧ p.x ≤ w ∧ 0 ≤ p.y ∧ p.y ≤ h ∧
      p.vx = p.baseVx ∧ p.vy = p.baseVy ∧ |p.baseVx| ≤ 0.15 ∧ |p.baseVy| ≤ 0.15 ∧
      1 ≤ p.size ∧ p.size ≤ 3 ∧ 1 ≤ p.density ∧ p.density ≤ 31 ∧
      (tick false 0 0 m w h p).x < 0 ∧
      0 ≤ (tick false 0 0 ⟨0, 0, false⟩ w h (tick false 0 0 m w h p)).x ∧
      (tick false 0 0 ⟨0, 0, false⟩ w h (tick false 0 0 m w h p)).x ≤ w := by
  have h1x : (tick false 0 0 ⟨10, 300, true⟩ 800 600 pEscape).x = -39.1 := by
    rw [tick_eq, jitterOf_false]
    have ex : pEscape.x + (pEscape.vx * 0.96 + pEscape.baseVx * 0.04) + 0 = 5 := by
      norm_num [pEscape]
    have ey : pEscape.y + (pEscape.vy * 0.96 + pEscape.baseVy * 0.04) + 0 = 300 := by
      norm_num [pEscape]
    rw [ex, ey, wrapCoord_id 5 800 (by norm_num) (by norm_num),
      wrapCoord_id 300 600 (by norm_num) (by norm_num)]
    have hd5 : Real.sqrt
        ((10 - ({ pEscape with
            x := (5 : ℝ), y := (300 : ℝ),
            vx := pEscape.vx * 0.96 + pEscape.baseVx * 0.04,
            vy := pEscape.vy * 0.96 + pEscape.baseVy * 0.04 } : Particle).x) *
          (10 - ({ pEscape with
            x := (5 : ℝ), y := (300 : ℝ),
            vx := pEscape.vx * 0.96 + pEscape.baseVx * 0.04,
            vy := pEscape.vy * 0.96 + pEscape.baseVy * 0.04 } : Particle).x) +
          (300 - ({ pEscape with
            x := (5 : ℝ), y := (300 : ℝ),
            vx := pEscape.vx * 0.96 + pEscape.baseVx * 0.04,
            vy := pEscape.vy * 0.96 + pEscape.baseVy * 0.04 } : Particle).y) *
          (300 - ({ pEscape with
            x := (5 : ℝ), y := (300 : ℝ),
            vx := pEscape.vx * 0.96 + pEscape.baseVx * 0.04,
            vy := pEscape.vy * 0.96 + pEscape.baseVy * 0.04 } : Particle).y)) = 5 := by
      show Real.sqrt (((10 : ℝ) - 5) * (10 - 5) + ((300 : ℝ) - 300) * (300 - 300)) = 5
      rw [show ((10 : ℝ) - 5) * (10 - 5) + ((300 : ℝ) - 300) * (300 - 300) = 5 * 5 by
        norm_num]
      exact Real.sqrt_mul_self (by norm_num)
    rw [repel_x 10 300
      ({ pEscape with
          x := (5 : ℝ), y := (300 : ℝ),
          vx := pEscape.vx * 0.96 + pEscape.baseVx * 0.04,
          vy := pEscape.vy * 0.96 + pEscape.baseVy * 0.04 } : Particle) 5 hd5 (by norm_num)]
    show (5 : ℝ) - (10 - 5) / 5 * ((250 - 5) / 250) * pEscape.density * 1.5 = -39.1
    norm_num [pEscape]
  have h2x : (tick false 0 0 ⟨0, 0, false⟩ 800 600
      (tick false 0 0 ⟨10, 300, true⟩ 800 600 pEscape)).x = 800 := by
    rw [tick_x_inactive _ _ _ _ _ _ _ rfl, jitterOf_false, h1x, tick_vx,
      (tick_fixed false 0 0 ⟨10, 300, true⟩ 800 600 pEscape).1]
    have e : (-39.1 : ℝ) +
        ((pEscape.vx * 0.96 + pEscape.baseVx * 0.04) * 0.96 + pEscape.baseVx * 0.04) + 0 =
        -39.1 := by
      norm_num [pEscape]
    rw [e, wrapCoord_neg _ _ (by norm_num)]
  refine ⟨800, 600, ⟨10, 300, true⟩, pEscape,
    rfl, by norm_num [pEscape], by norm_num [pEscape], by norm_num [pEscape],
    by norm_num [pEscape], by norm_num [pEscape], by norm_num [pEscape],
    by norm_num [pEscape], by norm_num [pEscape], by norm_num [pEscape],
    by norm_num [pEscape], by norm_num [pEscape], by norm_num [pEscape],
    by rw [h1x]; norm_num, by rw [h2x]; norm_num, by rw [h2x]⟩

lemma connectLines_mem (ps : List Particle) (s : Segment) :
    s ∈ connectLines ps ↔
      ∃ (i j : ℕ) (hi : i < ps.length) (hj : j < ps.length),
        i < j ∧ connectStep (ps.get ⟨i, hi⟩) (ps.get ⟨j, hj⟩) = some s := by
  induction ps with
  | nil =>
    simp [connectLines]
  | cons p rest ih =>
    simp only [connectLines, List.mem_append, List.mem_filterMap, ih]
    constructor
    · rintro (⟨q, hq, hstep⟩ | ⟨i, j, hi, hj, hij, hstep⟩)
      · obtain ⟨⟨k, hk⟩, hqe⟩ := List.mem_iff_get.mp hq
        rw [← hqe] at hstep
        exact ⟨0, k + 1, Nat.succ_pos _, Nat.succ_lt_succ hk, Nat.succ_pos _, hstep⟩
      · exact ⟨i + 1, j + 1, Nat.succ_lt_succ hi, Nat.succ_lt_succ hj,
          Nat.succ_lt_succ hij, hstep⟩
    · rintro ⟨i, j, hi, hj, hij, hstep⟩
      cases j with
      | zero => exact absurd hij (Nat.not_lt_zero i)
      | succ j2 =>
        cases i with
        | zero =>
          left
          exact ⟨rest.get ⟨j2, Nat.lt_of_succ_lt_succ hj⟩,
            List.get_mem rest j2 (Nat.lt_of_succ_lt_succ hj), hstep⟩
        | succ i2 =>
          right
          exact ⟨i2, j2, Nat.lt_of_succ_lt_succ hi, Nat.lt_of_succ_lt_succ hj,
            Nat.lt_of_succ_lt_succ hij, hstep⟩

/-- C7: for every unordered pair of particles, a connecting segment is
emitted iff their Euclidean distance is strictly below `120` (so none at
exactly `120`), and an emitted segment carries stroke alpha
`0.08 - distance / 1500` and line width `0.5`; membership in the frame's
segment list corresponds exactly to the index pairs `i < j` whose pair
step fires. -/
theorem c7_connection_threshold (a b : Particle) (ps : List Particle) (s : Segment) :
    ((∃ t, connectStep a b = some t) ↔
      Real.sqrt ((a.x - b.x) * (a.x - b.x) + (a.y - b.y) * (a.y - b.y)) < 120) ∧
    (Real.sqrt ((a.x - b.x) * (a.x - b.x) + (a.y - b.y) * (a.y - b.y)) = 120 →
      connectStep a b = none) ∧
    (∀ t, connectStep a b = some t →
      t.alpha = 0.08 -
        Real.sqrt ((a.x - b.x) * (a.x - b.x) + (a.y - b.y) * (a.y - b.y)) / 1500 ∧
      t.lineWidth = 0.5) ∧
    (s ∈ connectLines ps ↔
      ∃ (i j : ℕ) (hi : i < ps.length) (hj : j < ps.length),
        i < j ∧ connectStep (ps.get ⟨i, hi⟩) (ps.get ⟨j, hj⟩) = some s) := by
  refine ⟨?_, ?_, ?_, connectLines_mem ps s⟩
  · simp only [connectStep]
    by_cases hlt : Real.sqrt ((a.x - b.x) * (a.x - b.x) + (a.y - b.y) * (a.y - b.y)) < 120
    · rw [if_pos hlt]
      exact ⟨fun _ => hlt, fun _ => ⟨_, rfl⟩⟩
    · rw [if_neg hlt]
      constructor
      · rintro ⟨t, ht⟩
        exact absurd ht (by simp)
      · intro h
        exact absurd h hlt
  · intro h120
    simp only [connectStep]
    rw [if_neg (by rw [h120]; exact lt_irrefl 120)]
  · intro t ht
    simp only [connectStep] at ht
    by_cases hlt : Real.sqrt ((a.x - b.x) * (a.x - b.x) + (a.y - b.y) * (a.y - b.y)) < 120
    · rw [if_pos hlt] at ht
      obtain rfl := Option.some_injective _ ht
      exact ⟨rfl, rfl⟩
    · rw [if_neg hlt] at ht
      exact absurd ht (by simp)

/-- Witness for C7: two particles at distance `50` are connected. -/
theorem c7_connection_threshold_witness :
    ∃ t, connectStep ⟨0, 0, 0, 0, 0, 0, 1, "a", 0, 0, 1⟩
      ⟨50, 0, 0, 0, 0, 0, 1, "a", 50, 0, 1⟩ = some t :=
  (c7_connection_threshold ⟨0, 0, 0, 0, 0, 0, 1, "a", 0, 0, 1⟩
      ⟨50, 0, 0, 0, 0, 0, 1, "a", 50, 0, 1⟩ [] ⟨0, 0, 0, 0, 0, 0⟩).1.mpr
    (by
      have harg : (((⟨0, 0, 0, 0, 0, 0, 1, "a", 0, 0, 1⟩ : Particle).x -
            (⟨50, 0, 0, 0, 0, 0, 1, "a", 50, 0, 1⟩ : Particle).x) *
            ((⟨0, 0, 0, 0, 0, 0, 1, "a", 0, 0, 1⟩ : Particle).x -
            (⟨50, 0, 0, 0, 0, 0, 1, "a", 50, 0, 1⟩ : Particle).x) +
          ((⟨0, 0, 0, 0, 0, 0, 1, "a", 0, 0, 1⟩ : Particle).y -
            (⟨50, 0, 0, 0, 0, 0, 1, "a", 50, 0, 1⟩ : Particle).y) *
            ((⟨0, 0, 0, 0, 0, 0, 1, "a", 0, 0, 1⟩ : Particle).y -
            (⟨50, 0, 0, 0, 0, 0, 1, "a", 50, 0, 1⟩ : Particle).y)) = 50 * 50 := by
        norm_num
      rw [harg, Real.sqrt_mul_self (by norm_num : (0:ℝ) ≤ 50)]
      norm_num)

/-- A JavaScript double with every non-finite value (NaN, `±Infinity`)
collapsed into the single constructor `nonfinite`.  Arithmetic on finite
values is exact; any operation with a non-finite operand is modelled as
non-finite.  This collapse is exact whenever the only non-finite value in
play is NaN (NaN propagates through every arithmetic operation and makes
every comparison false), which is the case in the repulsion code path:
with finite coordinates the only non-finite creation point is the
division `dx / distance` at `distance = 0`, where `0 / 0` is NaN. -/
inductive JSNum where
  | fin : ℝ → JSNum
  | nonfinite : JSNum

namespace JSNum

noncomputable def add : JSNum → JSNum → JSNum
  | fin a, fin b => fin (a + b)
  | _, _ => nonfinite

noncomputable def sub : JSNum → JSNum → JSNum
  | fin a, fin b => fin (a - b)
  | _, _ => nonfinite

noncomputable def mul : JSNum → JSNum → JSNum
  | fin a, fin b => fin (a * b)
  | _, _ => nonfinite

/-- JavaScript division: division by (exact) zero never produces a finite
double (`0/0` is NaN, otherwise `±Infinity`). -/
noncomputable def div : JSNum → JSNum → JSNum
  | fin a, fin b => if b = 0 then nonfinite else fin (a / b)
  | _, _ => nonfinite

/-- `Math.sqrt`: NaN on negative input. -/
noncomputable def sqrt : JSNum → JSNum
  | fin a => if a < 0 then nonfinite else fin (Real.sqrt a)
  | nonfinite => nonfinite

/-- The `<` comparison: false whenever either side is NaN. -/
def lt : JSNum → JSNum → Prop
  | fin a, fin b => a < b
  | _, _ => False

noncomputable instance : (a b : JSNum) → Decidable (lt a b)
  | fin x, fin y => inferInstanceAs (Decidable (x < y))
  | fin _, nonfinite => isFalse id
  | nonfinite, _ => isFalse id

end JSNum

/-- The continuous pointer repulsion (lines 144-164, the branch taken
when the pointer is active) re-embedded over `JSNum` so that IEEE-754
non-finite propagation is visible: inputs are the pointer coordinates
`(mx, my)` and the particle's position and density; the result is the
particle's new position. -/
noncomputable def repelJS (mx my px py density : JSNum) : JSNum × JSNum :=
  let dx := JSNum.sub mx px
  let dy := JSNum.sub my py
  let distance := JSNum.sqrt (JSNum.add (JSNum.mul dx dx) (JSNum.mul dy dy))
  if JSNum.lt distance (JSNum.fin 250) then
    let forceDirectionX := JSNum.div dx distance
    let forceDirectionY := JSNum.div dy distance
    let force := JSNum.div (JSNum.sub (JSNum.fin 250) distance) (JSNum.fin 250)
    let directionX := JSNum.mul (JSNum.mul (JSNum.mul forceDirectionX force) density)
      (JSNum.fin 1.5)
    let directionY := JSNum.mul (JSNum.mul (JSNum.mul forceDirectionY force) density)
      (JSNum.fin 1.5)
    (JSNum.sub px directionX, JSNum.sub py directionY)
  else (px, py)

/-- C1 fails on the code (the claim states the intended guard, the code
has none): for a particle exactly at the force center, the burst applies
a nonzero kick `(15, 0)` — `Math.atan2(0, 0)` is `0`, so the full-force
direction defaults to the positive x axis — and the continuous repulsion
divides `0 / 0`, writing non-finite (NaN) values into both position
coordinates. -/
theorem c1_zero_distance_unguarded :
    (burstKick 100 100 ⟨100, 100, 0, 0, 0, 0, 2, "c", 100, 100, 10⟩).vx = 15 ∧
    (burstKick 100 100 ⟨100, 100, 0, 0, 0, 0, 2, "c", 100, 100, 10⟩).vy = 0 ∧
    (repelJS (JSNum.fin 100) (JSNum.fin 100) (JSNum.fin 100) (JSNum.fin 100)
        (JSNum.fin 10)).1 = JSNum.nonfinite ∧
    (repelJS (JSNum.fin 100) (JSNum.fin 100) (JSNum.fin 100) (JSNum.fin 100)
        (JSNum.fin 10)).2 = JSNum.nonfinite := by
  have hatan : atan2 ((⟨100, 100, 0, 0, 0, 0, 2, "c", 100, 100, 10⟩ : Particle).y - 100)
      ((⟨100, 100, 0, 0, 0, 0, 2, "c", 100, 100, 10⟩ : Particle).x - 100) = 0 := by
    unfold atan2
    rw [show (⟨(⟨100, 100, 0, 0, 0, 0, 2, "c", 100, 100, 10⟩ : Particle).x - 100,
        (⟨100, 100, 0, 0, 0, 0, 2, "c", 100, 100, 10⟩ : Particle).y - 100⟩ : ℂ) = 0 from
      Complex.ext (by norm_num) (by norm_num)]
    exact Complex.arg_zero
  have hburst : burstKick 100 100 ⟨100, 100, 0, 0, 0, 0, 2, "c", 100, 100, 10⟩ =
      { (⟨100, 100, 0, 0, 0, 0, 2, "c", 100, 100, 10⟩ : Particle) with
        vx := (⟨100, 100, 0, 0, 0, 0, 2, "c", 100, 100, 10⟩ : Particle).vx +
          Real.cos 0 * ((300 - 0) / 300) * 15,
        vy := (⟨100, 100, 0, 0, 0, 0, 2, "c", 100, 100, 10⟩ : Particle).vy +
          Real.sin 0 * ((300 - 0) / 300) * 15 } := by
    simp only [burstKick]
    rw [show ((⟨100, 100, 0, 0, 0, 0, 2, "c", 100, 100, 10⟩ : Particle).x - 100) *
          ((⟨100, 100, 0, 0, 0, 0, 2, "c", 100, 100, 10⟩ : Particle).x - 100) +
          ((⟨100, 100, 0, 0, 0, 0, 2, "c", 100, 100, 10⟩ : Particle).y - 100) *
          ((⟨100, 100, 0, 0, 0, 0, 2, "c", 100, 100, 10⟩ : Particle).y - 100) = 0 by
        norm_num,
      Real.sqrt_zero, hatan, if_pos (by norm_num : (0:ℝ) < 300)]
  refine ⟨?_, ?_, ?_, ?_⟩
  · rw [hburst]
    show (0 : ℝ) + Real.cos 0 * ((300 - 0) / 300) * 15 = 15
    rw [Real.cos_zero]
    norm_num
  · rw [hburst]
    show (0 : ℝ) + Real.sin 0 * ((300 - 0) / 300) * 15 = 0
    rw [Real.sin_zero]
    norm_num
  all_goals {
    simp only [repelJS, JSNum.sub, JSNum.mul, JSNum.add, JSNum.sqrt]
    rw [show ((100:ℝ) - 100) * (100 - 100) + (100 - 100) * (100 - 100) = 0 by norm_num,
      if_neg (lt_irrefl (0:ℝ)), Real.sqrt_zero,
      if_pos (show JSNum.lt (JSNum.fin 0) (JSNum.fin 250) from by
        show (0:ℝ) < 250
        norm_num)]
    simp only [JSNum.div, if_pos (rfl : (0:ℝ) = 0), JSNum.mul]
    norm_num
  }

end Zentick
